import Mathlib

/-!
Shallow embedding of the notification system in
`POO UNIDAD 2/Notificaciones.py`.

The Python module implements an Observer + Factory pattern:
`Notificacion` (the subject / broadcaster) keeps a list of observers and
notifies them; `Usuario` is the concrete observer which fans a message out
over its preferred channels; `NotificacionFactory.crear_notificacion` maps a
channel identifier string to a sender (`EmailNotificacion`, `SMSNotificacion`,
`PushNotificacion`) or `None`.

Console output (the delivery sink) is modelled as a list of `Ev` events, and
the subject state as a list of observer identities (`Nat`, standing for Python
object identity).  Observer behaviour during `actualizar` is modelled by an
environment mapping identities to implementations: either a `Usuario` (whose
`actualizar` is the translated Python code) or an abstract observer that may
add/remove observers on the subject and may raise an exception, which covers
every behaviour the claims quantify over.
-/

/-- The three concrete sender classes (`EmailNotificacion`, `SMSNotificacion`,
`PushNotificacion`).  They are stateless, so an enumeration suffices. -/
inductive INotificacion
  | email
  | sms
  | push
deriving DecidableEq, Repr

/-- Python whitespace as recognised by `str.strip()` on ASCII input:
space, tab, newline, carriage return, vertical tab, form feed. -/
def pyIsSpaceChar (c : Char) : Bool :=
  c.toNat == 32 || c.toNat == 9 || c.toNat == 10 || c.toNat == 13 ||
  c.toNat == 11 || c.toNat == 12

/-- Python `str.strip()` on the character list: drop whitespace from both
ends. -/
def pyStripL (l : List Char) : List Char :=
  ((l.dropWhile pyIsSpaceChar).reverse.dropWhile pyIsSpaceChar).reverse

/-- Python `str.strip()`. -/
def pyStrip (s : String) : String :=
  ⟨pyStripL s.data⟩

/-- Python `str.lower()` (ASCII case folding, as in the channel identifiers
used by the program; `Char.toLower` lowers exactly the basic latin capitals,
matching CPython on ASCII). -/
def pyLower (s : String) : String :=
  ⟨s.data.map Char.toLower⟩

/-- `NotificacionFactory.crear_notificacion`: normalise the channel
identifier with `strip().lower()` and return the matching sender, or `none`
(Python `None`) when the identifier is not recognised. -/
def crear_notificacion (tipo : String) : Option INotificacion :=
  let t := pyLower (pyStrip tipo)
  if t = "email" then some INotificacion.email
  else if t = "sms" then some INotificacion.sms
  else if t = "push" then some INotificacion.push
  else none

/-- The `Usuario` observer: name, email, phone and preferred channels. -/
structure Usuario where
  nombre : String
  email : String
  telefono : String
  canales_preferidos : List String
deriving DecidableEq, Repr

/-- `Usuario.__init__`: Python's `canales_preferidos or ["email"]` coerces
both `None` and the (falsy) empty list to the default `["email"]`. -/
def Usuario.init (nombre email telefono : String)
    (canales_preferidos : Option (List String)) : Usuario :=
  ⟨nombre, email, telefono,
    match canales_preferidos with
    | some (c :: cs) => c :: cs
    | _ => ["email"]⟩

/-- Observable events written to the console, one constructor per `print`
site (system messages of the subject, the user's reception line, the
unknown-channel warning, and a sender's delivery record). -/
inductive Ev
  | notificando (n : Nat) (mensaje : String)
  | agregado (obs : Nat)
  | eliminado (obs : Nat)
  | errorNotificando (obs : Nat) (detalle : String)
  | recibe (nombre mensaje : String)
  | canalDesconocido (nombre canal : String)
  | enviado (canal : INotificacion) (mensaje destino : String)
deriving DecidableEq, Repr

/-- The destination selection inside `Usuario.actualizar`: note that it
compares `canal.lower()` (without stripping) against the channel names, and
uses Python truthiness (`self.email or placeholder`) for the fallbacks. -/
def destino (u : Usuario) (canal : String) : String :=
  if pyLower canal = "email" then
    (if u.email = "" then pyLower u.nombre ++ "@example.com" else u.email)
  else if pyLower canal = "sms" then
    (if u.telefono = "" then "0000000000" else u.telefono)
  else if pyLower canal = "push" then u.nombre
  else u.nombre

/-- One iteration of the channel loop in `Usuario.actualizar`: unknown
channel prints a warning and continues; otherwise the sender created by the
factory delivers the message to the selected destination. -/
def Usuario.procesarCanal (u : Usuario) (mensaje canal : String) : List Ev :=
  match crear_notificacion canal with
  | none => [Ev.canalDesconocido u.nombre canal]
  | some n => [Ev.enviado n mensaje (destino u canal)]

/-- `Usuario.actualizar`: print the reception line, then process every
preferred channel in list order. -/
def Usuario.actualizar (u : Usuario) (mensaje : String) : List Ev :=
  Ev.recibe u.nombre mensaje ::
    u.canales_preferidos.flatMap (u.procesarCanal mensaje)

/-- An action an observer may perform on the subject during its own
`actualizar` (calling `agregar_observador` or `eliminar_observador`). -/
inductive Accion
  | agregar (obs : Nat)
  | eliminar (obs : Nat)
deriving DecidableEq, Repr

/-- Behaviour of an arbitrary (non-`Usuario`) observer: the subject
mutations it performs during `actualizar`, and optionally an exception it
raises (with its message). -/
structure Comportamiento where
  acciones : List Accion
  excepcion : Option String
deriving DecidableEq, Repr

/-- Implementation bound to an observer identity: either the concrete
`Usuario` class or an abstract observer with arbitrary behaviour. -/
inductive Impl
  | usuario (u : Usuario)
  | abstracto (c : Comportamiento)
deriving DecidableEq

/-- The exception (if any) an implementation raises from `actualizar`:
a translated `Usuario.actualizar` only prints, so it never raises. -/
def lanzaDe : Impl → Option String
  | Impl.usuario _ => none
  | Impl.abstracto c => c.excepcion

/-- `Notificacion.agregar_observador`: append the observer only if not yet
present, and print the system line only on actual insertion. -/
def agregar_observador (obsList : List Nat) (o : Nat) : List Nat × List Ev :=
  if o ∈ obsList then (obsList, [])
  else (obsList ++ [o], [Ev.agregado o])

/-- `Notificacion.eliminar_observador`: remove the (first occurrence of the)
observer if present, printing only on actual removal. -/
def eliminar_observador (obsList : List Nat) (o : Nat) : List Nat × List Ev :=
  if o ∈ obsList then (obsList.erase o, [Ev.eliminado o])
  else (obsList, [])

/-- Run the subject mutations an abstract observer performs during its
`actualizar`, threading the subject's observer list. -/
def runAcciones (obsList : List Nat) : List Accion → List Nat × List Ev
  | [] => (obsList, [])
  | Accion.agregar o :: rest =>
      let p := agregar_observador obsList o
      let q := runAcciones p.1 rest
      (q.1, p.2 ++ q.2)
  | Accion.eliminar o :: rest =>
      let p := eliminar_observador obsList o
      let q := runAcciones p.1 rest
      (q.1, p.2 ++ q.2)

/-- One call `obs.actualizar(mensaje)` as seen from the subject: the new
observer list, the printed events, and the exception raised (if any). -/
def actualizarObs (env : Nat → Impl) (mensaje : String) (obsList : List Nat)
    (o : Nat) : List Nat × List Ev × Option String :=
  match env o with
  | Impl.usuario u => (obsList, u.actualizar mensaje, none)
  | Impl.abstracto c =>
      let p := runAcciones obsList c.acciones
      (p.1, p.2, c.excepcion)

/-- The `for obs in list(self._observadores)` loop of
`notificar_observadores`: iterate over the snapshot while the live list
mutates; each raised exception is caught and turned into the
`Error notificando` line.  The third component records the `actualizar`
calls actually made (observer identity and message), in order. -/
def notificarLoop (env : Nat → Impl) (mensaje : String) (obsList : List Nat) :
    List Nat → List Nat × List Ev × List (Nat × String)
  | [] => (obsList, [], [])
  | o :: rest =>
      let p := actualizarObs env mensaje obsList o
      let evs :=
        match p.2.2 with
        | none => p.2.1
        | some e => p.2.1 ++ [Ev.errorNotificando o e]
      let q := notificarLoop env mensaje p.1 rest
      (q.1, evs ++ q.2.1, (o, mensaje) :: q.2.2)

/-- `Notificacion.notificar_observadores`: print the system header, then
iterate over a snapshot (a copy) of the current observer list.  Returns the
final observer list, the console events, and the list of `actualizar` calls
made. -/
def notificar_observadores (env : Nat → Impl) (obsList : List Nat)
    (mensaje : String) : List Nat × List Ev × List (Nat × String) :=
  let r := notificarLoop env mensaje obsList obsList
  (r.1, Ev.notificando obsList.length mensaje :: r.2.1, r.2.2)

/-- States of the subject reachable from the empty initial list through the
public operations, with observer behaviour during notification drawn from
`env` (so adds/removes performed inside an observer's own `actualizar` are
included). -/
inductive Alcanzable (env : Nat → Impl) : List Nat → Prop
  | inicial : Alcanzable env []
  | agregar (l : List Nat) (o : Nat) :
      Alcanzable env l → Alcanzable env (agregar_observador l o).1
  | eliminar (l : List Nat) (o : Nat) :
      Alcanzable env l → Alcanzable env (eliminar_observador l o).1
  | notificar (l : List Nat) (m : String) :
      Alcanzable env l → Alcanzable env (notificar_observadores env l m).1

example : crear_notificacion "EMAIL" = some INotificacion.email := by decide
example : crear_notificacion " email " = some INotificacion.email := by decide
example : crear_notificacion "telegram" = none := by decide
example :
    (Usuario.init "Diego" "" "" (some ["email"])).actualizar "hola" =
      [Ev.recibe "Diego" "hola",
       Ev.enviado INotificacion.email "hola" "diego@example.com"] := by decide

lemma notificarLoop_llamadas (env : Nat → Impl) (msg : String) :
    ∀ (snap s : List Nat),
      (notificarLoop env msg s snap).2.2 = snap.map (fun o => (o, msg)) := by
  intro snap
  induction snap with
  | nil => intro s; rfl
  | cons o rest ih => intro s; simp [notificarLoop, ih]

/-- C1: `notificar_observadores` calls `actualizar(msg)` exactly once on each
observer subscribed when the call began, in subscription order — the call
trace equals the snapshot, for every observer environment (so also when
observers add or remove observers during their own update), and under the
subject's no-duplicates invariant each subscribed observer is called exactly
once. -/
theorem notificar_llamadas_snapshot (env : Nat → Impl) (l : List Nat)
    (msg : String) :
    (notificar_observadores env l msg).2.2 = l.map (fun o => (o, msg)) ∧
    (∀ o ∈ l, (o, msg) ∈ (notificar_observadores env l msg).2.2) ∧
    (l.Nodup → ((notificar_observadores env l msg).2.2).Nodup) := by
  have h1 : (notificar_observadores env l msg).2.2 =
      l.map (fun o => (o, msg)) := by
    simp [notificar_observadores, notificarLoop_llamadas]
  have hinj : Function.Injective (fun o : Nat => (o, msg)) := by
    intro a b hab
    simpa using hab
  refine ⟨h1, ?_, ?_⟩
  · intro o ho
    rw [h1]
    exact List.mem_map_of_mem (fun o => (o, msg)) ho
  · intro hnd
    rw [h1]
    exact hnd.map hinj

/-- C1 witness: a concrete run with three observers, the second of which
removes the third and adds a new one during its own update; all three
originally subscribed observers are still called exactly once, in order. -/
theorem notificar_llamadas_snapshot_witness :
    (notificar_observadores
        (fun o =>
          if o = 2 then Impl.abstracto ⟨[Accion.eliminar 3, Accion.agregar 9], none⟩
          else Impl.abstracto ⟨[], none⟩)
        [1, 2, 3] "m").2.2 = [(1, "m"), (2, "m"), (3, "m")] ∧
    (notificar_observadores
        (fun o =>
          if o = 2 then Impl.abstracto ⟨[Accion.eliminar 3, Accion.agregar 9], none⟩
          else Impl.abstracto ⟨[], none⟩)
        [1, 2, 3] "m").2.2.Nodup := by
  refine ⟨(notificar_llamadas_snapshot _ [1, 2, 3] "m").1, ?_⟩
  exact (notificar_llamadas_snapshot _ [1, 2, 3] "m").2.2 (by decide)

/-- C6: `agregar_observador` is idempotent: it appends the observer only when
absent, emits the log event only on actual insertion, and a second add of the
same observer leaves the list (hence its length) unchanged and prints
nothing. -/
theorem agregar_observador_idempotente (l : List Nat) (o : Nat) :
    (o ∉ l → agregar_observador l o = (l ++ [o], [Ev.agregado o])) ∧
    (o ∈ l → agregar_observador l o = (l, [])) ∧
    agregar_observador (agregar_observador l o).1 o =
      ((agregar_observador l o).1, []) ∧
    ((agregar_observador (agregar_observador l o).1 o).1).length =
      ((agregar_observador l o).1).length := by
  by_cases h : o ∈ l
  · exact ⟨fun hn => absurd h hn, fun _ => by simp [agregar_observador, h],
      by simp [agregar_observador, h], by simp [agregar_observador, h]⟩
  · exact ⟨fun _ => by simp [agregar_observador, h], fun hm => absurd hm h,
      by simp [agregar_observador, h], by simp [agregar_observador, h]⟩

/-- C6 witness: adding observer 7 to the empty subject inserts it and logs;
adding it again changes nothing and logs nothing. -/
theorem agregar_observador_idempotente_witness :
    agregar_observador [] 7 = ([7], [Ev.agregado 7]) ∧
    agregar_observador [7] 7 = ([7], []) :=
  ⟨(agregar_observador_idempotente [] 7).1 (by decide),
   (agregar_observador_idempotente [7] 7).2.1 (by decide)⟩

lemma nodup_agregar_observador {l : List Nat} (o : Nat) (h : l.Nodup) :
    ((agregar_observador l o).1).Nodup := by
  unfold agregar_observador
  by_cases hm : o ∈ l
  · simpa [hm]
  · have : (l ++ [o]).Nodup := by
      rw [show l ++ [o] = l ++ o :: [] from rfl, List.nodup_middle]
      simpa [List.nodup_cons] using ⟨hm, h⟩
    simpa [hm]

lemma nodup_eliminar_observador {l : List Nat} (o : Nat) (h : l.Nodup) :
    ((eliminar_observador l o).1).Nodup := by
  unfold eliminar_observador
  by_cases hm : o ∈ l
  · simpa [hm] using (List.erase_sublist o l).nodup h
  · simpa [hm]

lemma nodup_runAcciones {l : List Nat} (as : List Accion) (h : l.Nodup) :
    ((runAcciones l as).1).Nodup := by
  induction as generalizing l with
  | nil => simpa [runAcciones]
  | cons a rest ih =>
      cases a with
      | agregar o => exact ih (nodup_agregar_observador o h)
      | eliminar o => exact ih (nodup_eliminar_observador o h)

lemma nodup_actualizarObs (env : Nat → Impl) (msg : String) {l : List Nat}
    (o : Nat) (h : l.Nodup) : ((actualizarObs env msg l o).1).Nodup := by
  unfold actualizarObs
  cases env o with
  | usuario u => simpa
  | abstracto c => simpa using nodup_runAcciones c.acciones h

lemma nodup_notificarLoop (env : Nat → Impl) (msg : String) :
    ∀ (snap : List Nat) {s : List Nat}, s.Nodup →
      ((notificarLoop env msg s snap).1).Nodup := by
  intro snap
  induction snap with
  | nil => intro s h; simpa [notificarLoop]
  | cons o rest ih =>
      intro s h
      simpa [notificarLoop] using ih (nodup_actualizarObs env msg o h)

/-- C7: the subject's observer list has no duplicates in every state
reachable from the empty initial state by `agregar_observador`,
`eliminar_observador` and `notificar_observadores` — including the
adds/removes observers perform during their own `actualizar`. -/
theorem alcanzable_nodup (env : Nat → Impl) (l : List Nat)
    (h : Alcanzable env l) : l.Nodup := by
  induction h with
  | inicial => exact List.nodup_nil
  | agregar l o _ ih => exact nodup_agregar_observador o ih
  | eliminar l o _ ih => exact nodup_eliminar_observador o ih
  | notificar l m _ ih =>
      exact nodup_notificarLoop env m l ih

lemma notificarLoop_error (env : Nat → Impl) (msg : String) :
    ∀ (snap s : List Nat) (o : Nat) (e : String), o ∈ snap →
      lanzaDe (env o) = some e →
      Ev.errorNotificando o e ∈ (notificarLoop env msg s snap).2.1 := by
  intro snap
  induction snap with
  | nil =>
      intro s o e h _
      cases h
  | cons a rest ih =>
      intro s o e hmem hl
      rcases List.mem_cons.1 hmem with heq | hmem2
      · subst heq
        cases henv : env o with
        | usuario u => simp [lanzaDe, henv] at hl
        | abstracto c =>
            have hexc : c.excepcion = some e := by
              simpa [lanzaDe, henv] using hl
            simp [notificarLoop, actualizarObs, henv, hexc]
      · cases henv : env a with
        | usuario u =>
            simp only [notificarLoop, actualizarObs, henv]
            exact List.mem_append_right _ (ih s o e hmem2 hl)
        | abstracto c =>
            cases hexc : c.excepcion with
            | none =>
                simp only [notificarLoop, actualizarObs, henv, hexc]
                exact List.mem_append_right _
                  (ih (runAcciones s c.acciones).1 o e hmem2 hl)
            | some e2 =>
                simp only [notificarLoop, actualizarObs, henv, hexc]
                exact List.mem_append_right _
                  (ih (runAcciones s c.acciones).1 o e hmem2 hl)

/-- C2: when an observer's `actualizar` raises during
`notificar_observadores`, the exception is caught at the subject: the
`Error notificando` diagnostic naming the observer and the exception detail
appears in the output, and every observer of the snapshot is still called
(the call trace equals the full snapshot).  `notificar_observadores` is a
total function of the model, so no observer failure propagates to the
caller. -/
theorem notificar_atrapa_excepciones (env : Nat → Impl) (l : List Nat)
    (msg : String) :
    (∀ o ∈ l, ∀ e, lanzaDe (env o) = some e →
      Ev.errorNotificando o e ∈ (notificar_observadores env l msg).2.1) ∧
    (notificar_observadores env l msg).2.2 = l.map (fun o => (o, msg)) := by
  constructor
  · intro o ho e he
    simp only [notificar_observadores]
    exact List.mem_cons_of_mem _ (notificarLoop_error env msg l l o e ho he)
  · simp [notificar_observadores, notificarLoop_llamadas]

/-- C2 witness: with observers 1, 2, 3 where observer 2 raises "boom", the
diagnostic names observer 2 with the detail, and observers 1, 2, 3 were all
called. -/
theorem notificar_atrapa_excepciones_witness :
    Ev.errorNotificando 2 "boom" ∈
      (notificar_observadores
        (fun o =>
          if o = 2 then Impl.abstracto ⟨[], some "boom"⟩
          else Impl.abstracto ⟨[], none⟩)
        [1, 2, 3] "m").2.1 ∧
    (notificar_observadores
        (fun o =>
          if o = 2 then Impl.abstracto ⟨[], some "boom"⟩
          else Impl.abstracto ⟨[], none⟩)
        [1, 2, 3] "m").2.2 = [(1, "m"), (2, "m"), (3, "m")] :=
  ⟨(notificar_atrapa_excepciones _ [1, 2, 3] "m").1 2 (by decide) "boom" (by decide),
   (notificar_atrapa_excepciones _ [1, 2, 3] "m").2⟩

/-- C3: `crear_notificacion` normalises the channel identifier by stripping
whitespace and lowercasing before lookup: any string whose normal form is
"email"/"sms"/"push" resolves to the corresponding sender, every other
string yields the explicit not-found result `none` (the function is total,
it never throws); in particular "EMAIL" and " email " both resolve to the
Email sender and "telegram" is not found. -/
theorem crear_notificacion_normaliza :
    (∀ s, pyLower (pyStrip s) = "email" →
      crear_notificacion s = some INotificacion.email) ∧
    (∀ s, pyLower (pyStrip s) = "sms" →
      crear_notificacion s = some INotificacion.sms) ∧
    (∀ s, pyLower (pyStrip s) = "push" →
      crear_notificacion s = some INotificacion.push) ∧
    (∀ s, pyLower (pyStrip s) ≠ "email" → pyLower (pyStrip s) ≠ "sms" →
      pyLower (pyStrip s) ≠ "push" → crear_notificacion s = none) ∧
    crear_notificacion "EMAIL" = some INotificacion.email ∧
    crear_notificacion " email " = some INotificacion.email ∧
    crear_notificacion "telegram" = none := by
  refine ⟨?_, ?_, ?_, ?_, by decide, by decide, by decide⟩
  · intro s h
    simp [crear_notificacion, h]
  · intro s h
    simp [crear_notificacion, h]
  · intro s h
    simp [crear_notificacion, h]
  · intro s h1 h2 h3
    simp [crear_notificacion, h1, h2, h3]

/-- C3 witness: the normalisation clauses applied at concrete inputs. -/
theorem crear_notificacion_normaliza_witness :
    crear_notificacion "  SMS" = some INotificacion.sms ∧
    crear_notificacion "Push " = some INotificacion.push ∧
    crear_notificacion " telegram " = none :=
  ⟨crear_notificacion_normaliza.2.1 "  SMS" (by decide),
   crear_notificacion_normaliza.2.2.1 "Push " (by decide),
   crear_notificacion_normaliza.2.2.2.1 " telegram " (by decide)
     (by decide) (by decide)⟩

/-- C5: a preferred channel the factory cannot resolve makes `actualizar`
print the unknown-channel warning naming the subscriber and the channel,
with no delivery event for that entry and no exception (the function is
total), while every resolvable channel of the same subscriber still
produces its delivery. -/
theorem actualizar_canal_desconocido (u : Usuario) (msg canal : String)
    (h : crear_notificacion canal = none) :
    u.procesarCanal msg canal = [Ev.canalDesconocido u.nombre canal] ∧
    (canal ∈ u.canales_preferidos →
      Ev.canalDesconocido u.nombre canal ∈ u.actualizar msg) ∧
    (∀ c ∈ u.canales_preferidos, ∀ n, crear_notificacion c = some n →
      Ev.enviado n msg (destino u c) ∈ u.actualizar msg) := by
  refine ⟨by simp [Usuario.procesarCanal, h], ?_, ?_⟩
  · intro hc
    exact List.mem_cons_of_mem _
      (List.mem_flatMap.2 ⟨canal, hc, by simp [Usuario.procesarCanal, h]⟩)
  · intro c hc n hn
    exact List.mem_cons_of_mem _
      (List.mem_flatMap.2 ⟨c, hc, by simp [Usuario.procesarCanal, hn]⟩)

/-- C5 witness: Carla has channels ["email", "telegram"]; "telegram" yields
the warning naming her and the channel and no delivery for that entry,
while the "email" channel still delivers to her stored address. -/
theorem actualizar_canal_desconocido_witness :
    (Usuario.mk "Carla" "c@x.com" "555" ["email", "telegram"]).procesarCanal
        "hola" "telegram" = [Ev.canalDesconocido "Carla" "telegram"] ∧
    Ev.canalDesconocido "Carla" "telegram" ∈
      (Usuario.mk "Carla" "c@x.com" "555" ["email", "telegram"]).actualizar "hola" ∧
    Ev.enviado INotificacion.email "hola" "c@x.com" ∈
      (Usuario.mk "Carla" "c@x.com" "555" ["email", "telegram"]).actualizar "hola" := by
  have h := actualizar_canal_desconocido
    (Usuario.mk "Carla" "c@x.com" "555" ["email", "telegram"]) "hola" "telegram"
    (by decide)
  refine ⟨h.1, h.2.1 (by decide), ?_⟩
  have h2 := h.2.2 "email" (by decide) INotificacion.email (by decide)
  simpa using h2

/-- C9: constructing a `Usuario` with an explicitly empty channel list gives
exactly the same object as passing no list at all — the preferred channels
become the default `["email"]`, so "subscribe to no channels" is not
expressible at construction, and `actualizar` on such a subscriber attempts
an email delivery. -/
theorem usuario_init_lista_vacia (n e t msg : String) :
    Usuario.init n e t (some []) = Usuario.init n e t none ∧
    (Usuario.init n e t (some [])).canales_preferidos = ["email"] ∧
    (Usuario.init n e t (some [])).actualizar msg =
      [Ev.recibe n msg,
       Ev.enviado INotificacion.email msg
         (if e = "" then pyLower n ++ "@example.com" else e)] := by
  refine ⟨rfl, rfl, ?_⟩
  simp [Usuario.init, Usuario.actualizar, Usuario.procesarCanal,
    crear_notificacion, destino, pyLower, pyStrip, pyStripL, pyIsSpaceChar]

lemma toNat_ofNat_valid (n : Nat) (h : n.isValidChar) :
    (Char.ofNat n).toNat = n := by
  rw [Char.ofNat, dif_pos h]
  rfl

lemma toNat_toLower_of_upper {c : Char} (h1 : 65 ≤ c.toNat) (h2 : c.toNat ≤ 90) :
    (Char.toLower c).toNat = c.toNat + 32 := by
  have hv : (c.toNat + 32).isValidChar := Or.inl (by omega)
  simp only [Char.toLower]
  rw [if_pos ⟨by omega, by omega⟩]
  exact toNat_ofNat_valid _ hv

lemma toLower_eq_self_of_not_upper {c : Char}
    (h : ¬(65 ≤ c.toNat ∧ c.toNat ≤ 90)) : Char.toLower c = c := by
  simp only [Char.toLower]
  rw [if_neg]
  intro hc
  exact h ⟨hc.1, hc.2⟩

lemma pyIsSpaceChar_toLower (c : Char) :
    pyIsSpaceChar (Char.toLower c) = pyIsSpaceChar c := by
  by_cases h : 65 ≤ c.toNat ∧ c.toNat ≤ 90
  · have h32 := toNat_toLower_of_upper h.1 h.2
    have hl : pyIsSpaceChar (Char.toLower c) = false := by
      simp only [pyIsSpaceChar, h32, Bool.or_eq_false_iff, beq_eq_false_iff_ne,
        ne_eq]
      omega
    have hr : pyIsSpaceChar c = false := by
      simp only [pyIsSpaceChar, Bool.or_eq_false_iff, beq_eq_false_iff_ne,
        ne_eq]
      omega
    rw [hl, hr]
  · rw [toLower_eq_self_of_not_upper h]

lemma dropWhile_eq_self_of_head (l : List Char)
    (h : ∀ c, l.head? = some c → pyIsSpaceChar c = false) :
    l.dropWhile pyIsSpaceChar = l := by
  cases l with
  | nil => rfl
  | cons a as => simp [List.dropWhile_cons, h a rfl]

lemma pyStripL_eq_self (l : List Char)
    (h1 : ∀ c, l.head? = some c → pyIsSpaceChar c = false)
    (h2 : ∀ c, l.getLast? = some c → pyIsSpaceChar c = false) :
    pyStripL l = l := by
  unfold pyStripL
  rw [dropWhile_eq_self_of_head l h1]
  rw [dropWhile_eq_self_of_head l.reverse
    (by intro c hc; exact h2 c (by rwa [List.head?_reverse] at hc))]
  exact List.reverse_reverse l

lemma pyStrip_eq_self_of_lower {s t : String} (hl : pyLower s = t)
    (h1 : ∀ c, t.data.head? = some c → pyIsSpaceChar c = false)
    (h2 : ∀ c, t.data.getLast? = some c → pyIsSpaceChar c = false) :
    pyStrip s = s := by
  have hdata : s.data.map Char.toLower = t.data := by
    have := congrArg String.data hl
    simpa [pyLower] using this
  have hh1 : ∀ c, s.data.head? = some c → pyIsSpaceChar c = false := by
    intro c hc
    have hm : t.data.head? = some (Char.toLower c) := by
      rw [← hdata, List.head?_map, hc]
      rfl
    have := h1 _ hm
    rwa [pyIsSpaceChar_toLower] at this
  have hh2 : ∀ c, s.data.getLast? = some c → pyIsSpaceChar c = false := by
    intro c hc
    have hm : t.data.getLast? = some (Char.toLower c) := by
      rw [← hdata, List.getLast?_map, hc]
      rfl
    have := h2 _ hm
    rwa [pyIsSpaceChar_toLower] at this
  show (⟨pyStripL s.data⟩ : String) = s
  rw [pyStripL_eq_self s.data hh1 hh2]

lemma lower_email_strip {canal : String} (h : pyLower canal = "email") :
    pyStrip canal = canal := by
  refine pyStrip_eq_self_of_lower h ?_ ?_
  · intro c hc
    simp at hc
    subst hc
    decide
  · intro c hc
    simp at hc
    subst hc
    decide

lemma crear_notificacion_of_lower_email {canal : String}
    (h : pyLower canal = "email") :
    crear_notificacion canal = some INotificacion.email := by
  unfold crear_notificacion
  rw [lower_email_strip h, h]
  simp

/-- C4 counterexample: the claim as stated is false.  The channel entry
`" email "` is mapped by the resolver (which strips before lowercasing) to
the Email sender, and the subscriber's stored email `"bob@x.com"` is
non-empty, yet `actualizar` passes the subscriber's name `"Bob"` as the
delivery destination, because the destination selection compares
`canal.lower()` without stripping and falls through to the name fallback. -/
theorem destino_email_contraejemplo :
    crear_notificacion " email " = some INotificacion.email ∧
    (Usuario.mk "Bob" "bob@x.com" "" [" email "]).actualizar "hola" =
      [Ev.recibe "Bob" "hola",
       Ev.enviado INotificacion.email "hola" "Bob"] ∧
    "Bob" ≠ "bob@x.com" ∧ "Bob" ≠ "bob@example.com" := by
  exact ⟨by decide, by decide, by decide, by decide⟩

/-- C4 (amended): for every preferred-channel entry whose `lower()` form is
exactly "email" (no surrounding whitespace), `actualizar` delivers through
the Email sender to the stored email when it is non-empty, and otherwise to
the placeholder built from the lowercased name plus "@example.com".  Entries
that the resolver maps to the Email sender only after stripping whitespace
instead use the name fallback as destination (see the counterexample). -/
theorem destino_email (u : Usuario) (msg canal : String)
    (h : pyLower canal = "email") :
    u.procesarCanal msg canal =
      [Ev.enviado INotificacion.email msg
        (if u.email = "" then pyLower u.nombre ++ "@example.com"
         else u.email)] ∧
    (canal ∈ u.canales_preferidos →
      Ev.enviado INotificacion.email msg
        (if u.email = "" then pyLower u.nombre ++ "@example.com"
         else u.email) ∈ u.actualizar msg) := by
  have hc := crear_notificacion_of_lower_email h
  have hd : destino u canal =
      if u.email = "" then pyLower u.nombre ++ "@example.com"
      else u.email := by
    unfold destino
    rw [if_pos h]
  refine ⟨by simp [Usuario.procesarCanal, hc, hd], ?_⟩
  intro hm
  exact List.mem_cons_of_mem _
    (List.mem_flatMap.2 ⟨canal, hm, by simp [Usuario.procesarCanal, hc, hd]⟩)

/-- C4 witness: Diego has an empty email and channel list ["email"]; the
delivery goes to the synthesized placeholder "diego@example.com". -/
theorem destino_email_witness :
    (Usuario.init "Diego" "" "" (some ["email"])).procesarCanal "m" "email" =
      [Ev.enviado INotificacion.email "m" "diego@example.com"] ∧
    Ev.enviado INotificacion.email "m" "diego@example.com" ∈
      (Usuario.init "Diego" "" "" (some ["email"])).actualizar "m" := by
  have h := destino_email (Usuario.init "Diego" "" "" (some ["email"]))
    "m" "email" (by decide)
  have heq :
      (if (Usuario.init "Diego" "" "" (some ["email"])).email = "" then
        pyLower (Usuario.init "Diego" "" "" (some ["email"])).nombre ++
          "@example.com"
       else (Usuario.init "Diego" "" "" (some ["email"])).email) =
      "diego@example.com" := by decide
  rw [heq] at h
  exact ⟨h.1, h.2 (by decide)⟩

/-- Test for a delivery record event (a sender's `enviar` output). -/
def esEnviado : Ev → Bool
  | Ev.enviado _ _ _ => true
  | _ => false

/-- The deliveries `Usuario.actualizar` performs, as described by the spec:
one `enviar` call per resolvable entry of the preferred-channels list
(repeated entries included), in list order. -/
def enviosUsuario (u : Usuario) (msg : String) : List Ev :=
  u.canales_preferidos.filterMap
    (fun c => (crear_notificacion c).map
      (fun n => Ev.enviado n msg (destino u c)))

lemma filter_esEnviado_actualizar (u : Usuario) (msg : String) :
    (u.actualizar msg).filter esEnviado = enviosUsuario u msg := by
  have hcs : ∀ cs : List String,
      (cs.flatMap (u.procesarCanal msg)).filter esEnviado =
        cs.filterMap (fun c => (crear_notificacion c).map
          (fun n => Ev.enviado n msg (destino u c))) := by
    intro cs
    induction cs with
    | nil => rfl
    | cons c rest ih =>
        simp only [List.flatMap_cons, List.filterMap_cons, List.filter_append,
          ih]
        cases hc : crear_notificacion c with
        | none => simp [Usuario.procesarCanal, hc, esEnviado]
        | some n => simp [Usuario.procesarCanal, hc, esEnviado]
  unfold Usuario.actualizar enviosUsuario
  rw [List.filter_cons]
  simp only [esEnviado, hcs u.canales_preferidos]
  rfl

lemma notificarLoop_usuarios (env : Nat → Impl) (f : Nat → Usuario)
    (msg : String) :
    ∀ (snap : List Nat), (∀ o ∈ snap, env o = Impl.usuario (f o)) →
      ∀ (s : List Nat),
        (notificarLoop env msg s snap).1 = s ∧
        (notificarLoop env msg s snap).2.1 =
          snap.flatMap (fun o => (f o).actualizar msg) := by
  intro snap
  induction snap with
  | nil => exact fun _ s => ⟨rfl, rfl⟩
  | cons a rest ih =>
      intro h s
      have ha : env a = Impl.usuario (f a) := h a (by simp)
      have hr : ∀ o ∈ rest, env o = Impl.usuario (f o) := by
        intro o ho
        exact h o (by simp [ho])
      have hih := ih hr s
      constructor
      · simp only [notificarLoop, actualizarObs, ha]
        exact hih.1
      · simp only [notificarLoop, actualizarObs, ha, List.flatMap_cons]
        rw [hih.2]

lemma filter_flatMap_esEnviado {α : Type} (f : α → List Ev) :
    ∀ l : List α,
      (l.flatMap f).filter esEnviado =
        l.flatMap (fun a => (f a).filter esEnviado) := by
  intro l
  induction l with
  | nil => rfl
  | cons a rest ih =>
      simp only [List.flatMap_cons, List.filter_append, ih]

/-- C8: deliveries triggered by `notificar_observadores` over subscribers
are totally ordered: the sequence of delivery records equals the
concatenation, over observers in subscription order, of each observer's
per-channel deliveries — one `enviar` per resolvable entry (repeated
entries included), strictly in the order of its preferred-channels list. -/
theorem notificar_orden_envios (env : Nat → Impl) (f : Nat → Usuario)
    (l : List Nat) (msg : String)
    (h : ∀ o ∈ l, env o = Impl.usuario (f o)) :
    ((notificar_observadores env l msg).2.1).filter esEnviado =
      l.flatMap (fun o => enviosUsuario (f o) msg) := by
  have hl := notificarLoop_usuarios env f msg l h l
  simp only [notificar_observadores, List.filter_cons]
  rw [hl.2]
  simp only [esEnviado, filter_flatMap_esEnviado, filter_esEnviado_actualizar]
  rfl

/-- C8 witness: Alice (channels email, push, email again) and Bob (sms):
the deliveries come out as all of Alice's, in her channel-list order with
the repeated entry delivered twice, followed by Bob's. -/
theorem notificar_orden_envios_witness :
    ((notificar_observadores
        (fun o =>
          if o = 1 then
            Impl.usuario (Usuario.mk "Alice" "a@x.com" "111" ["email", "push", "email"])
          else Impl.usuario (Usuario.mk "Bob" "" "222" ["sms"]))
        [1, 2] "X").2.1).filter esEnviado =
      [Ev.enviado INotificacion.email "X" "a@x.com",
       Ev.enviado INotificacion.push "X" "Alice",
       Ev.enviado INotificacion.email "X" "a@x.com",
       Ev.enviado INotificacion.sms "X" "222"] := by
  have h := notificar_orden_envios
    (fun o =>
      if o = 1 then
        Impl.usuario (Usuario.mk "Alice" "a@x.com" "111" ["email", "push", "email"])
      else Impl.usuario (Usuario.mk "Bob" "" "222" ["sms"]))
    (fun o =>
      if o = 1 then Usuario.mk "Alice" "a@x.com" "111" ["email", "push", "email"]
      else Usuario.mk "Bob" "" "222" ["sms"])
    [1, 2] "X" (by decide)
  rw [h]
  decide

lemma errorNotificando_not_mem_actualizar (u : Usuario) (msg : String)
    (o : Nat) (e : String) : Ev.errorNotificando o e ∉ u.actualizar msg := by
  intro hmem
  rcases List.mem_cons.1 hmem with h | h
  · simp at h
  · rcases List.mem_flatMap.1 h with ⟨c, _, hmem2⟩
    unfold Usuario.procesarCanal at hmem2
    cases hcn : crear_notificacion c <;> rw [hcn] at hmem2 <;> simp at hmem2

/-- C10: a `Usuario`'s `actualizar` is a total function that raises no
exception (its translation only prints and appends events), so when every
subscribed observer is a `Usuario` the exception branch of
`notificar_observadores` is unreachable: no observer raises, and no
`Error notificando` line can appear in the output. -/
theorem usuarios_no_lanzan (env : Nat → Impl) (f : Nat → Usuario)
    (l : List Nat) (msg : String)
    (h : ∀ o ∈ l, env o = Impl.usuario (f o)) :
    (∀ o ∈ l, lanzaDe (env o) = none) ∧
    (∀ o e, Ev.errorNotificando o e ∉ (notificar_observadores env l msg).2.1) := by
  refine ⟨fun o ho => by simp [lanzaDe, h o ho], ?_⟩
  intro o e hmem
  have hl := notificarLoop_usuarios env f msg l h l
  simp only [notificar_observadores] at hmem
  rcases List.mem_cons.1 hmem with hh | hh
  · simp at hh
  · rw [hl.2] at hh
    rcases List.mem_flatMap.1 hh with ⟨a, _, hm2⟩
    exact errorNotificando_not_mem_actualizar (f a) msg o e hm2

/-- C10 witness: a subject holding two `Usuario` observers, one of them with
an unknown channel in its list, notifies with no error line emitted. -/
theorem usuarios_no_lanzan_witness :
    Ev.errorNotificando 1 "err" ∉
      (notificar_observadores
        (fun o =>
          if o = 1 then Impl.usuario (Usuario.mk "Ana" "" "" ["email", "telegram"])
          else Impl.usuario (Usuario.mk "Luis" "" "" ["sms"]))
        [1, 2] "m").2.1 :=
  (usuarios_no_lanzan
    (fun o =>
      if o = 1 then Impl.usuario (Usuario.mk "Ana" "" "" ["email", "telegram"])
      else Impl.usuario (Usuario.mk "Luis" "" "" ["sms"]))
    (fun o =>
      if o = 1 then Usuario.mk "Ana" "" "" ["email", "telegram"]
      else Usuario.mk "Luis" "" "" ["sms"])
    [1, 2] "m" (by decide)).2 1 "err"

/-- C7 witness: after adding observers 1 and 2 and then notifying, where
observer 1 adds an already-present observer (2), itself, and a fresh
observer 5 during its update, the reached state is still duplicate-free. -/
theorem alcanzable_nodup_witness :
    ((notificar_observadores
        (fun o =>
          if o = 1 then
            Impl.abstracto ⟨[Accion.agregar 2, Accion.agregar 1, Accion.agregar 5], none⟩
          else Impl.abstracto ⟨[], none⟩)
        ((agregar_observador ((agregar_observador [] 1).1) 2).1) "m").1).Nodup :=
  alcanzable_nodup _ _
    (Alcanzable.notificar _ "m"
      (Alcanzable.agregar _ 2 (Alcanzable.agregar _ 1 Alcanzable.inicial)))
